import Mathlib

/-!
Shallow embedding of src/src/bpf/pid_iter.bpf.c from Netflix/bpftop.

The single routine `bpftop_iter` is a BPF task-file iterator: for each
(task, file) pair presented by the kernel traversal it may append one
fixed-size `pid_iter_entry` record to the output sequence and returns a
continue/stop code.

Modelling decisions, all taken from the source:
  - the iteration context carries an optional task and an optional file
    (either pointer may be null);
  - a file object carries its operation-table address (`fops`, the kernel
    field `f_op`), the kind of object `private_data` actually points to,
    and, when that object is a BPF program, the identifier stored in its
    auxiliary metadata (`aux->id`, a u32);
  - the two fallible kernel reads (`BPF_CORE_READ` of `aux->id`, and
    `bpf_probe_read_kernel_str` of the leader comm) are given their
    outcomes by an `Oracle`: on failure the CORE read yields 0 and the
    string read leaves the destination untouched; when `private_data` is
    not a program object the CORE read returns an arbitrary
    oracle-supplied value (garbage memory reinterpreted as a u32);
  - the load-time environment records whether the weak ksym
    `bpf_prog_fops` resolved, and to what address if so.  The source
    declares this symbol and never reads it, and the embedding mirrors
    that: `bpftop_iter` receives the environment and ignores it.
-/

/-- Kind of kernel object a file handle's private data points to. -/
inductive ObjKind where
  | prog : ObjKind
  | other : ObjKind
  deriving DecidableEq, Repr

/-- The slice of `struct file` the routine can observe: the operation
table address and what stands behind `private_data`.  `progAuxId` is the
u32 `aux->id` of the program object when `kind` is `prog`. -/
structure FileObj where
  fops : Nat
  kind : ObjKind
  progAuxId : Nat
  deriving DecidableEq, Repr

/-- The slice of `struct task_struct` the routine reads: `tgid` and the
group leader's `comm` buffer, a NUL-terminated byte string. -/
structure task_struct where
  tgid : Int
  group_leader_comm : List Nat
  deriving DecidableEq, Repr

/-- The iteration context `struct bpf_iter__task_file`: the current task
and the current file, either of which may be null. -/
structure Ctx where
  task : Option task_struct
  file : Option FileObj
  deriving DecidableEq, Repr

/-- Outcomes of the fallible kernel reads for one invocation:
whether the CORE read of `aux->id` succeeds, the u32 value such a read
yields when the file is not really a program object, and whether the
string read of the leader comm succeeds. -/
structure Oracle where
  idReadOk : Bool
  idGarbage : Nat
  commReadOk : Bool
  deriving DecidableEq, Repr

/-- Load-time environment: the address of the weak ksym `bpf_prog_fops`
when the running kernel resolves it, `none` otherwise. -/
structure KernelEnv where
  bpf_prog_fops : Option Nat
  deriving DecidableEq, Repr

/-- The output record `struct pid_iter_entry`: a u32 program id, an int
pid, and the 16-byte `comm` field (kept as a length-16 byte list). -/
structure pid_iter_entry where
  id : Nat
  pid : Int
  comm : List Nat
  deriving DecidableEq, Repr

/-- The bytes of a NUL-terminated kernel string up to (excluding) the
first NUL. -/
def strUpToNul (src : List Nat) : List Nat :=
  src.takeWhile (fun b => b ≠ 0)

/-- Model of `bpf_probe_read_kernel_str(dest, size, src)`: on success it
copies at most `size - 1` bytes of the source string and then writes a
NUL, leaving the rest of `dest` untouched; on failure `dest` is left as
it was. -/
def probe_read_kernel_str (dest : List Nat) (size : Nat) (src : List Nat)
    (ok : Bool) : List Nat :=
  if ok then
    let s := (strUpToNul src).take (size - 1)
    s ++ [0] ++ dest.drop (s.length + 1)
  else dest

/-- Model of `BPF_CORE_READ((struct bpf_prog *)file->private_data, aux, id)`:
a fallible chain of kernel reads of a u32.  On failure the destination is
zeroed, so the macro yields 0; on success it yields the program's
`aux->id` when `private_data` really is a program object, and an
arbitrary reinterpreted u32 otherwise. -/
def core_read_aux_id (f : FileObj) (o : Oracle) : Nat :=
  if o.idReadOk then
    match f.kind with
    | ObjKind.prog => f.progAuxId % 2 ^ 32
    | ObjKind.other => o.idGarbage % 2 ^ 32
  else 0

/-- The record after `__builtin_memset(&e, 0, sizeof(e))`. -/
def zeroEntry : pid_iter_entry :=
  { id := 0, pid := 0, comm := List.replicate 16 0 }

/-- The routine `bpftop_iter`, translated line by line from
src/src/bpf/pid_iter.bpf.c.  Returns the C return value together with the
list of records this invocation appended via `bpf_seq_write` (length 0 or
1).  The environment argument is the resolution state of the declared
weak ksym; the source never reads that symbol, so the body ignores it. -/
def bpftop_iter (env : KernelEnv) (o : Oracle) (ctx : Ctx) :
    Int × List pid_iter_entry :=
  match ctx.file, ctx.task with
  | some file, some task =>
    let e0 := zeroEntry
    let e1 := { e0 with pid := task.tgid }
    let e2 := { e1 with id := core_read_aux_id file o }
    let e3 := { e2 with
      comm := probe_read_kernel_str e2.comm 16 task.group_leader_comm
                o.commReadOk }
    (0, [e3])
  | _, _ => (0, [])

/-- The host traversal: invokes the routine once per pair, in order,
appending each invocation's output; a nonzero return code would stop the
walk after the current pair. -/
def runTraversal (env : KernelEnv) : List (Oracle × Ctx) → List pid_iter_entry
  | [] => []
  | p :: ps =>
    let r := bpftop_iter env p.1 p.2
    if r.1 = 0 then r.2 ++ runTraversal env ps else r.2

/-- The bytes of `comm` explicitly written by the name-capture step: the
truncated source string plus its NUL terminator on a successful read,
nothing on a failed read. -/
def writtenComm (o : Oracle) (t : task_struct) : List Nat :=
  if o.commReadOk then (strUpToNul t.group_leader_comm).take 15 ++ [0]
  else []

/-! Concrete values used by witnesses and counterexamples. -/

/-- The bytes of the 16-byte kernel comm buffer holding the name
"loader" followed by NUL padding. -/
def loaderComm : List Nat :=
  [108, 111, 97, 100, 101, 114, 0, 0, 0, 0, 0, 0, 0, 0, 0, 0]

/-- A task with pid 4242 whose group leader is named "loader". -/
def taskA : task_struct :=
  { tgid := 4242, group_leader_comm := loaderComm }

/-- A file handle whose private data is a BPF program object with
auxiliary id 17; its operation table lives at address 555. -/
def fileProg17 : FileObj :=
  { fops := 555, kind := ObjKind.prog, progAuxId := 17 }

/-- A file handle to a non-program object (operation table at address
100, not the program operation table). -/
def fileOther : FileObj :=
  { fops := 100, kind := ObjKind.other, progAuxId := 0 }

/-- Oracle on which both kernel reads succeed. -/
def okOracle : Oracle :=
  { idReadOk := true, idGarbage := 7, commReadOk := true }

/-- Oracle on which both kernel reads fail. -/
def failOracle : Oracle :=
  { idReadOk := false, idGarbage := 7, commReadOk := false }

/-- Environment where the weak ksym resolved, to address 555. -/
def envResolved : KernelEnv := { bpf_prog_fops := some 555 }

/-- Environment where the weak ksym did not resolve. -/
def envMissing : KernelEnv := { bpf_prog_fops := none }

/-- Context pairing taskA with the program file of id 17. -/
def ctxA : Ctx := { task := some taskA, file := some fileProg17 }

/-- Context pairing taskA with the non-program file. -/
def ctxOther : Ctx := { task := some taskA, file := some fileOther }

/-- The record the routine emits on ctxA under okOracle. -/
def entryA : pid_iter_entry :=
  { id := 17, pid := 4242, comm := loaderComm }

/-- Helper: the routine returns 0 on every input. -/
lemma bpftop_iter_fst_eq_zero (env : KernelEnv) (o : Oracle) (ctx : Ctx) :
    (bpftop_iter env o ctx).1 = 0 := by
  rcases ctx with ⟨t, f⟩
  cases t <;> cases f <;> rfl

/-- Helper: the routine emits at most one record per invocation. -/
lemma bpftop_iter_snd_len_le_one (env : KernelEnv) (o : Oracle) (ctx : Ctx) :
    (bpftop_iter env o ctx).2.length ≤ 1 := by
  rcases ctx with ⟨t, f⟩
  cases t <;> cases f <;> simp [bpftop_iter]

/-- C1, counterexample: on the pair (taskA, fileOther) the handle does
not reference a loaded-program object, yet the routine emits a record,
refuting "a record is emitted only if the object is a loaded-program
object". -/
theorem c1_counterexample :
    (bpftop_iter envResolved okOracle ctxOther).2.length = 1 ∧
    fileOther.kind ≠ ObjKind.prog ∧ ctxOther.file = some fileOther := by
  decide

/-- C1 (amended): the routine emits a record if and only if both the
task and the file of the presented pair are non-null; the kind of object
the handle references is never consulted. -/
theorem c1_emit_iff_both_present (env : KernelEnv) (o : Oracle) (ctx : Ctx) :
    (bpftop_iter env o ctx).2 ≠ [] ↔
      (ctx.task.isSome = true ∧ ctx.file.isSome = true) := by
  rcases ctx with ⟨t, f⟩
  cases t <;> cases f <;> simp [bpftop_iter]

/-- C2, counterexample: in an environment where bpf_prog_fops resolved
(to address 555), a pair whose file has a different operation-table
address (100) is not skipped: a record is still emitted, refuting the
claimed strict filter. -/
theorem c2_counterexample :
    envResolved.bpf_prog_fops = some 555 ∧ fileOther.fops ≠ 555 ∧
    (bpftop_iter envResolved okOracle ctxOther).2.length = 1 := by
  decide

/-- C2 (amended): the routine never applies the strict filter: even when
bpf_prog_fops is resolvable, a pair whose operation-table pointer does
not match it still produces exactly one record whenever task and file
are present (the permissive policy is unconditional; the probed symbol
is declared but never compared against). -/
theorem c2_no_strict_filter (env : KernelEnv) (o : Oracle)
    (t : task_struct) (f : FileObj) (addr : Nat)
    (hres : env.bpf_prog_fops = some addr) (hne : f.fops ≠ addr) :
    (bpftop_iter env o { task := some t, file := some f }).2.length = 1 := by
  simp [bpftop_iter]

/-- Witness for c2_no_strict_filter at the concrete mismatching pair. -/
theorem c2_no_strict_filter_witness :
    envResolved.bpf_prog_fops = some 555 ∧ fileOther.fops ≠ 555 ∧
    (bpftop_iter envResolved okOracle
      { task := some taskA, file := some fileOther }).2.length = 1 :=
  ⟨by decide, by decide,
    c2_no_strict_filter envResolved okOracle taskA fileOther 555
      (by decide) (by decide)⟩

/-- C3 (confirmed): when the handle of the current pair references a
program object whose auxiliary id is a u32, and the CORE read succeeds,
the single emitted record carries exactly that id — a function of the
current pair only, never of another handle or a previous pair. -/
theorem c3_program_id_from_current_handle (env : KernelEnv) (o : Oracle)
    (t : task_struct) (f : FileObj)
    (hk : f.kind = ObjKind.prog) (hok : o.idReadOk = true)
    (hlt : f.progAuxId < 2 ^ 32) :
    ((bpftop_iter env o { task := some t, file := some f }).2.map
        pid_iter_entry.id) = [f.progAuxId] := by
  have hmod : f.progAuxId % 2 ^ 32 = f.progAuxId := Nat.mod_eq_of_lt hlt
  simp [bpftop_iter, core_read_aux_id, hok, hk, hmod]
  exact hlt

/-- Witness for c3_program_id_from_current_handle at ctxA: the emitted
id is 17, the id of the program behind fileProg17. -/
theorem c3_witness :
    fileProg17.kind = ObjKind.prog ∧ okOracle.idReadOk = true ∧
    fileProg17.progAuxId < 2 ^ 32 ∧
    ((bpftop_iter envMissing okOracle
        { task := some taskA, file := some fileProg17 }).2.map
      pid_iter_entry.id) = [fileProg17.progAuxId] :=
  ⟨by decide, by decide, by decide,
    c3_program_id_from_current_handle envMissing okOracle taskA fileProg17
      (by decide) (by decide) (by decide)⟩

/-- C4 (confirmed): every emitted record's pid field equals the tgid of
the task of the pair that triggered the emission. -/
theorem c4_pid_from_current_task (env : KernelEnv) (o : Oracle) (ctx : Ctx)
    (e : pid_iter_entry) (he : e ∈ (bpftop_iter env o ctx).2) :
    ∃ t, ctx.task = some t ∧ e.pid = t.tgid := by
  rcases ctx with ⟨t, f⟩
  cases t <;> cases f <;> simp_all [bpftop_iter]

/-- Witness for c4_pid_from_current_task: on ctxA the emitted record
entryA has pid 4242, the tgid of taskA. -/
theorem c4_witness :
    ∃ t, ctxA.task = some t ∧ entryA.pid = t.tgid :=
  c4_pid_from_current_task envMissing okOracle ctxA entryA (by decide)

/-- C5 (confirmed): a pair with a null task or a null file emits no
record, returns the continue code 0, and the traversal goes on to the
remaining pairs exactly as if the pair were not there. -/
theorem c5_absent_skips_and_continues (env : KernelEnv) (o : Oracle)
    (ctx : Ctx) (ps : List (Oracle × Ctx))
    (h : ctx.task = none ∨ ctx.file = none) :
    bpftop_iter env o ctx = (0, []) ∧
    runTraversal env ((o, ctx) :: ps) = runTraversal env ps := by
  have h1 : bpftop_iter env o ctx = (0, []) := by
    rcases ctx with ⟨t, f⟩
    rcases h with h | h <;> simp_all [bpftop_iter]
  exact ⟨h1, by simp [runTraversal, h1]⟩

/-- Witness for c5_absent_skips_and_continues at a pair with a null
task, followed by one further pair. -/
theorem c5_witness :
    bpftop_iter envMissing okOracle
        { task := none, file := some fileOther } = (0, []) ∧
    runTraversal envMissing
        [(okOracle, { task := none, file := some fileOther }), (okOracle, ctxA)]
      = runTraversal envMissing [(okOracle, ctxA)] :=
  c5_absent_skips_and_continues envMissing okOracle
    { task := none, file := some fileOther } [(okOracle, ctxA)] (Or.inl rfl)

/-- A 20-byte name with no NUL inside: longer than the 16-byte field. -/
def longComm : List Nat := List.replicate 20 65

/-- A task whose group leader name is 20 bytes long. -/
def taskLong : task_struct := { tgid := 7, group_leader_comm := longComm }

/-- Context pairing the long-named task with the program file. -/
def ctxLong : Ctx := { task := some taskLong, file := some fileProg17 }

/-- The record the routine emits on ctxLong under okOracle: the name is
truncated to 15 bytes plus a NUL terminator. -/
def entryLong : pid_iter_entry :=
  { id := 17, pid := 7, comm := List.replicate 15 65 ++ [0] }

/-- Helper: the name-capture step always leaves the 16-byte destination
16 bytes long. -/
lemma probe_read_len16 (src : List Nat) (ok : Bool) :
    (probe_read_kernel_str (List.replicate 16 0) 16 src ok).length = 16 := by
  cases ok <;> simp [probe_read_kernel_str]
  omega

/-- Helper: the name-capture step always leaves a NUL byte somewhere in
the 16-byte destination. -/
lemma probe_read_mem_zero (src : List Nat) (ok : Bool) :
    0 ∈ probe_read_kernel_str (List.replicate 16 0) 16 src ok := by
  cases ok <;> simp [probe_read_kernel_str, List.mem_replicate]

/-- C6 (confirmed): every emitted record's comm field is exactly 16
bytes and holds a NUL terminator within those 16 bytes, whatever the
source name, including names of 16 bytes or more (truncated, never
written past the field). -/
theorem c6_comm_nul_terminated (env : KernelEnv) (o : Oracle) (ctx : Ctx)
    (e : pid_iter_entry) (he : e ∈ (bpftop_iter env o ctx).2) :
    e.comm.length = 16 ∧ 0 ∈ e.comm := by
  rcases ctx with ⟨t, f⟩
  cases t <;> cases f <;> simp_all [bpftop_iter]
  subst he
  exact ⟨probe_read_len16 _ _, probe_read_mem_zero _ _⟩

/-- Witness for c6_comm_nul_terminated on the 20-byte name: the emitted
comm is 16 bytes and NUL-terminated. -/
theorem c6_witness : entryLong.comm.length = 16 ∧ 0 ∈ entryLong.comm :=
  c6_comm_nul_terminated envMissing okOracle ctxLong entryLong (by decide)

/-- C7 (confirmed): if the id read or the name read fails, the record is
still emitted (exactly one), with the unread field left as the zero
bytes the memset put there; a partial read never suppresses emission. -/
theorem c7_partial_read_still_emits (env : KernelEnv) (o : Oracle)
    (t : task_struct) (f : FileObj)
    (h : o.idReadOk = false ∨ o.commReadOk = false) :
    ∃ e, (bpftop_iter env o { task := some t, file := some f }).2 = [e] ∧
      (o.idReadOk = false → e.id = 0) ∧
      (o.commReadOk = false → e.comm = List.replicate 16 0) := by
  refine ⟨_, rfl, fun h1 => ?_, fun h2 => ?_⟩
  · simp [bpftop_iter, core_read_aux_id, h1]
  · simp [bpftop_iter, zeroEntry, probe_read_kernel_str, h2]

/-- Witness for c7_partial_read_still_emits with both reads failing. -/
theorem c7_witness :
    (failOracle.idReadOk = false ∨ failOracle.commReadOk = false) ∧
    ∃ e, (bpftop_iter envMissing failOracle
            { task := some taskA, file := some fileProg17 }).2 = [e] ∧
      (failOracle.idReadOk = false → e.id = 0) ∧
      (failOracle.commReadOk = false → e.comm = List.replicate 16 0) :=
  ⟨Or.inl rfl,
    c7_partial_read_still_emits envMissing failOracle taskA fileProg17
      (Or.inl rfl)⟩

/-- Helper: on a successful read the name-capture result is the written
prefix followed by the zeros the memset left behind. -/
lemma probe_read_true_eq (src : List Nat) :
    probe_read_kernel_str (List.replicate 16 0) 16 src true
      = ((strUpToNul src).take 15 ++ [0]) ++
        List.replicate (16 - ((strUpToNul src).take 15 ++ [0]).length) 0 := by
  show (strUpToNul src).take 15 ++ [0] ++
      (List.replicate 16 0).drop (((strUpToNul src).take 15).length + 1) = _
  rw [List.drop_replicate, List.append_assoc]
  simp [List.length_append]

/-- C8 (confirmed): every emitted record's comm field is the bytes the
name copy explicitly wrote followed by zeros from the memset: nothing
beyond the written prefix carries any other content.  The id and pid
fields are fully overwritten, and the record layout (4 + 4 + 16 bytes)
has no padding bytes, so the comm tail is the only region not covered by
field population. -/
theorem c8_unwritten_bytes_zero (env : KernelEnv) (o : Oracle) (ctx : Ctx)
    (e : pid_iter_entry) (he : e ∈ (bpftop_iter env o ctx).2) :
    ∃ t, ctx.task = some t ∧
      e.comm = writtenComm o t ++
        List.replicate (16 - (writtenComm o t).length) 0 := by
  rcases ctx with ⟨t, f⟩
  cases t <;> cases f <;> simp_all [bpftop_iter]
  subst he
  rcases o with ⟨i, g, c⟩
  cases c
  · simp [probe_read_kernel_str, writtenComm, zeroEntry]
  · simp only [zeroEntry]
    rw [probe_read_true_eq]
    simp [writtenComm]

/-- Witness for c8_unwritten_bytes_zero on ctxA: the "loader" record is
the 7 written bytes followed by 9 zeros. -/
theorem c8_witness :
    ∃ t, ctxA.task = some t ∧
      entryA.comm = writtenComm okOracle t ++
        List.replicate (16 - (writtenComm okOracle t).length) 0 :=
  c8_unwritten_bytes_zero envMissing okOracle ctxA entryA (by decide)

/-- Helper: a full traversal never stops early, because every return
code is 0; the output is the concatenation of the per-pair outputs. -/
lemma runTraversal_eq_flatten (env : KernelEnv) (ps : List (Oracle × Ctx)) :
    runTraversal env ps
      = (ps.map (fun p => (bpftop_iter env p.1 p.2).2)).flatten := by
  induction ps with
  | nil => rfl
  | cons p ps ih => simp [runTraversal, bpftop_iter_fst_eq_zero, ih]

/-- C9 (confirmed): on every input pair, valid or not, the routine
returns the continue code 0 and emits at most one record, and therefore
a traversal processes every pair: its output is the concatenation of the
per-pair outputs, with no early termination. -/
theorem c9_always_continue_at_most_one (env : KernelEnv) (o : Oracle)
    (ctx : Ctx) (ps : List (Oracle × Ctx)) :
    (bpftop_iter env o ctx).1 = 0 ∧
    (bpftop_iter env o ctx).2.length ≤ 1 ∧
    runTraversal env ps
      = (ps.map (fun p => (bpftop_iter env p.1 p.2).2)).flatten :=
  ⟨bpftop_iter_fst_eq_zero env o ctx, bpftop_iter_snd_len_le_one env o ctx,
    runTraversal_eq_flatten env ps⟩

/-- C10 (confirmed): the routine's output is identical whether or not
the weak ksym bpf_prog_fops resolves, and whatever it resolves to: the
declared symbol is never read, so for any fixed pair the two runs agree
on every byte of the result. -/
theorem c10_output_independent_of_ksym (env1 env2 : KernelEnv) (o : Oracle)
    (ctx : Ctx) : bpftop_iter env1 o ctx = bpftop_iter env2 o ctx := rfl
